import Mathlib

/-
Verification of the Tron light-cycle simulation core (src/tron_lightcycle.py).

The embedding below translates the simulation logic of the Python source:
the `Direction` enum, the `LightCycle` class (move / change_direction /
check_collision) and the `Game` class (update, the direction-change branch of
handle_keyboard_input, and restart via `Game.__init__`). Rendering, the pygame
event loop, key-code tables and the clock are platform glue with no effect on
the simulation state and are not modelled. Python integers are modelled as
`Int` (all coordinates in the program are integers: they start integral and
change by `direction * speed` with speed = 5). Mutation is modelled by
explicit state passing: methods that mutate `self` return the new cycle or
game, and `check_collision` returns the pair (result, updated cycle).
-/

namespace Tron

/-- Direction for cycle movement: the four enum members of the Python
`Direction(Enum)`, each carrying its `(dx, dy)` vector via `value`. -/
inductive Direction where
  | UP
  | DOWN
  | LEFT
  | RIGHT
deriving DecidableEq

/-- The `(dx, dy)` payload of each `Direction` member, exactly as in the
source: UP = (0, -1), DOWN = (0, 1), LEFT = (-1, 0), RIGHT = (1, 0). -/
def Direction.value : Direction → Int × Int
  | .UP => (0, -1)
  | .DOWN => (0, 1)
  | .LEFT => (-1, 0)
  | .RIGHT => (1, 0)

/-- State of one `LightCycle` object: position `(x, y)`, color, current
direction, trail (list of past positions, oldest first), player name, speed
and alive flag. The `key_controls` dict of the source maps raw key codes to
directions and is driver glue, not simulation state; it is not modelled. -/
structure LightCycle where
  x : Int
  y : Int
  color : Int × Int × Int
  direction : Direction
  trail : List (Int × Int)
  player_name : String
  speed : Int
  alive : Bool
deriving DecidableEq

/-- Constructor `LightCycle.__init__`: position, color, direction, name as
given; trail starts as the one-element list `[(x, y)]`; speed = 5;
alive = True. -/
def LightCycle.mk0 (x y : Int) (color : Int × Int × Int) (direction : Direction)
    (player_name : String) : LightCycle :=
  { x := x, y := y, color := color, direction := direction,
    trail := [(x, y)], player_name := player_name, speed := 5, alive := true }

/-- Method `LightCycle.move`: if not alive, return unchanged; otherwise add
`direction.value * speed` to the position componentwise and append the new
position to the trail. -/
def LightCycle.move (c : LightCycle) : LightCycle :=
  if c.alive then
    let dx := c.direction.value.1
    let dy := c.direction.value.2
    let x := c.x + dx * c.speed
    let y := c.y + dy * c.speed
    { c with x := x, y := y, trail := c.trail ++ [(x, y)] }
  else c

/-- Method `LightCycle.change_direction`: if not alive, return unchanged;
otherwise replace the direction by `new_direction` unless the current
direction vector equals the negation of the new one (no 180-degree turns). -/
def LightCycle.change_direction (c : LightCycle) (new_direction : Direction) :
    LightCycle :=
  if c.alive then
    if (c.direction.value.1, c.direction.value.2) ≠
        (-new_direction.value.1, -new_direction.value.2) then
      { c with direction := new_direction }
    else c
  else c

/-- Method `LightCycle.check_collision`: if not alive, return False with the
cycle unchanged. If the position is outside the screen (x < 0 or x > 800 or
y < 0 or y > 600), set alive to False and return True. Otherwise scan
`other_trail + self.trail[:-10]` (the Python slice `trail[:-10]` is
`take (length - 10)` with truncating subtraction) and on the first segment
with `abs(x - seg.1) < 5 and abs(y - seg.2) < 5` set alive to False and
return True; if no segment matches, return False with the cycle unchanged. -/
def LightCycle.check_collision (c : LightCycle) (other_trail : List (Int × Int)) :
    Bool × LightCycle :=
  if c.alive then
    if c.x < 0 ∨ c.x > 800 ∨ c.y < 0 ∨ c.y > 600 then
      (true, { c with alive := false })
    else if (other_trail ++ c.trail.take (c.trail.length - 10)).any
        (fun segment => decide (|c.x - segment.1| < 5 ∧ |c.y - segment.2| < 5)) then
      (true, { c with alive := false })
    else
      (false, c)
  else
    (false, c)

/-- Simulation state of the `Game` class: the two cycles, the `game_over`
flag and the optional winner string. The pygame screen, clock, font and the
key-code tables are rendering/input glue and are not modelled. -/
structure Game where
  cycle1 : LightCycle
  cycle2 : LightCycle
  game_over : Bool
  winner : Option String
deriving DecidableEq

/-- The winner assignment of `Game.update` once a collision was detected,
computed from the two cycles as they stand after the collision checks:
Draw if both are dead, otherwise the name of the surviving cycle. -/
def winnerOf (c1 c2 : LightCycle) : Option String :=
  if c1.alive = false ∧ c2.alive = false then some "Draw"
  else if c1.alive = false then some c2.player_name
  else some c1.player_name

/-- Method `Game.update`: return unchanged if game_over. Otherwise move both
cycles, then evaluate
`self.cycle1.check_collision(self.cycle2.trail) or self.cycle2.check_collision(self.cycle1.trail)`
with Python's short-circuit `or`: the second check runs only when the first
returned False. If either check returned True, set game_over and assign the
winner from the cycles' alive flags; otherwise keep running. -/
def Game.update (g : Game) : Game :=
  if g.game_over then g
  else
    let c1 := g.cycle1.move
    let c2 := g.cycle2.move
    let r1 := c1.check_collision c2.trail
    if r1.1 then
      { cycle1 := r1.2, cycle2 := c2, game_over := true,
        winner := winnerOf r1.2 c2 }
    else
      let r2 := c2.check_collision r1.2.trail
      if r2.1 then
        { cycle1 := r1.2, cycle2 := r2.2, game_over := true,
          winner := winnerOf r1.2 r2.2 }
      else
        { g with cycle1 := r1.2, cycle2 := r2.2 }

/-- Constructor `Game.__init__` restricted to simulation state: cycle1 at
(200, 300) colored (0, 255, 255) heading RIGHT named "Player 1", cycle2 at
(600, 300) colored (255, 255, 0) heading LEFT named "Player 2", game not
over, no winner. -/
def Game.init : Game :=
  { cycle1 := LightCycle.mk0 200 300 (0, 255, 255) Direction.RIGHT "Player 1",
    cycle2 := LightCycle.mk0 600 300 (255, 255, 0) Direction.LEFT "Player 2",
    game_over := false,
    winner := none }

/-- The player-1 direction-change branch of `Game.handle_keyboard_input`: a
key of player 1 mapping to direction `d` forwards to
`cycle1.change_direction` when `cycle1.alive` (the guard written in
`handle_keyboard_input`); there is no game_over guard on turning. -/
def Game.handle_turn1 (g : Game) (d : Direction) : Game :=
  if g.cycle1.alive then { g with cycle1 := g.cycle1.change_direction d }
  else g

/-- The player-2 direction-change branch of `Game.handle_keyboard_input`,
symmetric to `Game.handle_turn1`. -/
def Game.handle_turn2 (g : Game) (d : Direction) : Game :=
  if g.cycle2.alive then { g with cycle2 := g.cycle2.change_direction d }
  else g

/-- The restart action (`self.__init__()` as invoked from the spacebar and
mouse handlers): reconstructs the whole game state from scratch, discarding
the argument. -/
def Game.restart (_ : Game) : Game := Game.init

/-- States reachable from the initial configuration by any sequence of
tick (`update`), turn (`handle_turn1` / `handle_turn2`) and restart. -/
inductive Reachable : Game → Prop where
  | init : Reachable Game.init
  | tick {g : Game} : Reachable g → Reachable g.update
  | turn1 {g : Game} (d : Direction) : Reachable g → Reachable (g.handle_turn1 d)
  | turn2 {g : Game} (d : Direction) : Reachable g → Reachable (g.handle_turn2 d)
  | restart {g : Game} : Reachable g → Reachable g.restart

/-- The state invariant of the simulation: trails are never empty, a running
game has no winner and two live cycles, and a finished game has a winner. -/
def Inv (g : Game) : Prop :=
  1 ≤ g.cycle1.trail.length ∧ 1 ≤ g.cycle2.trail.length ∧
  (g.game_over = false → g.winner = none ∧ g.cycle1.alive = true ∧ g.cycle2.alive = true) ∧
  (g.game_over = true → g.winner ≠ none)

/-- Fixture: the cycle constructed for player 1 in `Game.__init__`. -/
def cycleA : LightCycle :=
  LightCycle.mk0 200 300 (0, 255, 255) Direction.RIGHT "Player 1"

/-- Fixture: `cycleA` with the alive flag cleared. -/
def deadCycle : LightCycle := { cycleA with alive := false }

/-- Fixture: `cycleA` placed past the right wall. -/
def oobCycle : LightCycle := { cycleA with x := 805 }

/-- Fixture: the initial game with cycle1 moved to the right wall, so that one
further move to the right puts it at x = 805. -/
def oobGame : Game :=
  { Game.init with cycle1 := { Game.init.cycle1 with x := 800 } }

/-- Fixture: a finished game state. -/
def finishedGame : Game :=
  { Game.init with game_over := true, winner := some "Player 1" }

/-- Fixture: the initial game with cycle1 dead. -/
def deadGame : Game := { Game.init with cycle1 := deadCycle }

/-- Fixture: the game state 39 ticks into a run from the initial
configuration; the cycles stand head-on at (395, 300) and (405, 300) and
meet at (400, 300) on the next tick. -/
def tick39 : Game := Game.update^[39] Game.init

section Lemmas

variable (c : LightCycle) (t : List (Int × Int)) (d : Direction) (g : Game)

theorem move_of_dead (h : c.alive = false) : c.move = c := by
  simp [LightCycle.move, h]

theorem move_of_alive (h : c.alive = true) :
    c.move = { c with
      x := c.x + c.direction.value.1 * c.speed,
      y := c.y + c.direction.value.2 * c.speed,
      trail := c.trail ++ [(c.x + c.direction.value.1 * c.speed,
                            c.y + c.direction.value.2 * c.speed)] } := by
  simp [LightCycle.move, h]

theorem move_alive : c.move.alive = c.alive := by
  cases h : c.alive <;> simp [LightCycle.move, h]

theorem move_player_name : c.move.player_name = c.player_name := by
  cases h : c.alive <;> simp [LightCycle.move, h]

theorem trail_length_le_move : c.trail.length ≤ c.move.trail.length := by
  cases h : c.alive <;> simp [LightCycle.move, h]

theorem change_direction_of_dead (h : c.alive = false) :
    c.change_direction d = c := by
  simp [LightCycle.change_direction, h]

theorem change_direction_alive : (c.change_direction d).alive = c.alive := by
  unfold LightCycle.change_direction
  split <;> [skip; rfl]
  split <;> rfl

theorem check_collision_of_dead (h : c.alive = false) :
    c.check_collision t = (false, c) := by
  simp [LightCycle.check_collision, h]

theorem check_collision_snd_trail : (c.check_collision t).2.trail = c.trail := by
  unfold LightCycle.check_collision
  split <;> [skip; rfl]
  split <;> [rfl; skip]
  split <;> rfl

theorem check_collision_snd_of_false (h : (c.check_collision t).1 = false) :
    (c.check_collision t).2 = c := by
  unfold LightCycle.check_collision at h ⊢
  split at h <;> rename_i h1
  · split at h <;> rename_i h2
    · simp at h
    · split at h <;> rename_i h3
      · simp at h
      · rw [if_pos h1, if_neg h2, if_neg h3]
  · rw [if_neg h1]

theorem check_collision_snd_alive_of_true (h : (c.check_collision t).1 = true) :
    (c.check_collision t).2.alive = false := by
  unfold LightCycle.check_collision at h ⊢
  split at h <;> rename_i h1
  · split at h <;> rename_i h2
    · rw [if_pos h1, if_pos h2]
    · split at h <;> rename_i h3
      · rw [if_pos h1, if_neg h2, if_pos h3]
      · simp at h
  · simp at h

theorem check_collision_oob (ha : c.alive = true)
    (hb : c.x < 0 ∨ c.x > 800 ∨ c.y < 0 ∨ c.y > 600) :
    c.check_collision t = (true, { c with alive := false }) := by
  unfold LightCycle.check_collision
  rw [if_pos ha, if_pos hb]

theorem check_collision_alive_inbounds (ha : c.alive = true)
    (hb : ¬(c.x < 0 ∨ c.x > 800 ∨ c.y < 0 ∨ c.y > 600)) :
    c.check_collision t =
      if (t ++ c.trail.take (c.trail.length - 10)).any
          (fun segment => decide (|c.x - segment.1| < 5 ∧ |c.y - segment.2| < 5)) then
        (true, { c with alive := false })
      else (false, c) := by
  unfold LightCycle.check_collision
  rw [if_pos ha, if_neg hb]

theorem check_collision_snd_cases :
    (c.check_collision t).2 = c ∨ (c.check_collision t).2 = { c with alive := false } := by
  unfold LightCycle.check_collision
  split
  · split
    · exact Or.inr rfl
    · split
      · exact Or.inr rfl
      · exact Or.inl rfl
  · exact Or.inl rfl

theorem check_collision_fst_iff (ha : c.alive = true) :
    (c.check_collision t).1 = true ↔ (c.check_collision t).2.alive = false := by
  constructor
  · exact check_collision_snd_alive_of_true c t
  · intro h2
    cases hf : (c.check_collision t).1
    · exfalso
      rw [check_collision_snd_of_false c t hf, ha] at h2
      cases h2
    · rfl

theorem winnerOf_ne_none (c1 c2 : LightCycle) : winnerOf c1 c2 ≠ none := by
  unfold winnerOf
  split <;> [simp; split <;> simp]

theorem update_of_finished (h : g.game_over = true) : g.update = g := by
  simp [Game.update, h]

theorem change_direction_trail : (c.change_direction d).trail = c.trail := by
  unfold LightCycle.change_direction
  split <;> [skip; rfl]
  split <;> rfl

theorem update_alive_mono1 (h : g.cycle1.alive = false) :
    g.update.cycle1.alive = false := by
  by_cases hg : g.game_over = true
  · rw [update_of_finished g hg]; exact h
  · have hm : g.cycle1.move = g.cycle1 := move_of_dead _ h
    have hcc : ∀ s, g.cycle1.check_collision s = (false, g.cycle1) :=
      fun s => check_collision_of_dead _ s h
    simp only [Game.update, if_neg hg, hm, hcc]
    split
    · exact h
    · split <;> exact h

theorem update_alive_mono2 (h : g.cycle2.alive = false) :
    g.update.cycle2.alive = false := by
  by_cases hg : g.game_over = true
  · rw [update_of_finished g hg]; exact h
  · have hm : g.cycle2.move = g.cycle2 := move_of_dead _ h
    have hcc : ∀ s, g.cycle2.check_collision s = (false, g.cycle2) :=
      fun s => check_collision_of_dead _ s h
    simp only [Game.update, if_neg hg, hm, hcc]
    split
    · exact h
    · split <;> exact h

theorem inv_init : Inv Game.init :=
  ⟨by decide, by decide, fun _ => ⟨rfl, rfl, rfl⟩, fun h => Bool.noConfusion h⟩

theorem inv_update (hI : Inv g) : Inv g.update := by
  by_cases hg : g.game_over = true
  · rw [update_of_finished g hg]; exact hI
  · have hg' : g.game_over = false := by simpa using hg
    obtain ⟨h1, h2, hrun, hfin⟩ := hI
    obtain ⟨hw, ha1, ha2⟩ := hrun hg'
    simp only [Game.update, if_neg hg]
    split <;> rename_i hr1
    · exact ⟨by rw [check_collision_snd_trail]; exact le_trans h1 (trail_length_le_move g.cycle1),
        le_trans h2 (trail_length_le_move g.cycle2),
        by simp, fun _ => winnerOf_ne_none _ _⟩
    · split <;> rename_i hr2
      · exact ⟨by rw [check_collision_snd_trail]; exact le_trans h1 (trail_length_le_move g.cycle1),
          by rw [check_collision_snd_trail]; exact le_trans h2 (trail_length_le_move g.cycle2),
          by simp, fun _ => winnerOf_ne_none _ _⟩
      · have e1 := check_collision_snd_of_false g.cycle1.move g.cycle2.move.trail
          (by simpa using hr1)
        have e2 := check_collision_snd_of_false g.cycle2.move
          (g.cycle1.move.check_collision g.cycle2.move.trail).2.trail (by simpa using hr2)
        refine ⟨?_, ?_, ?_, ?_⟩
        · rw [e1]; exact le_trans h1 (trail_length_le_move g.cycle1)
        · rw [e2]; exact le_trans h2 (trail_length_le_move g.cycle2)
        · intro _
          exact ⟨hw, by rw [e1, move_alive]; exact ha1, by rw [e2, move_alive]; exact ha2⟩
        · intro hc; rw [hg'] at hc; cases hc

theorem inv_turn1 (hI : Inv g) : Inv (g.handle_turn1 d) := by
  unfold Game.handle_turn1
  split
  · obtain ⟨h1, h2, hrun, hfin⟩ := hI
    refine ⟨?_, h2, ?_, hfin⟩
    · simpa [change_direction_trail] using h1
    · intro hp
      obtain ⟨hw, ha1, ha2⟩ := hrun hp
      exact ⟨hw, by simpa [change_direction_alive] using ha1, ha2⟩
  · exact hI

theorem inv_turn2 (hI : Inv g) : Inv (g.handle_turn2 d) := by
  unfold Game.handle_turn2
  split
  · obtain ⟨h1, h2, hrun, hfin⟩ := hI
    refine ⟨h1, ?_, ?_, hfin⟩
    · simpa [change_direction_trail] using h2
    · intro hp
      obtain ⟨hw, ha1, ha2⟩ := hrun hp
      exact ⟨hw, ha1, by simpa [change_direction_alive] using ha2⟩
  · exact hI

theorem reachable_inv {g : Game} (h : Reachable g) : Inv g := by
  induction h with
  | init => exact inv_init
  | tick _ ih => exact inv_update _ ih
  | turn1 d _ ih => exact inv_turn1 d _ ih
  | turn2 d _ ih => exact inv_turn2 d _ ih
  | restart _ _ => exact inv_init

end Lemmas

/-- C2: for every alive cycle with an in-bounds position, `check_collision`
scans `other_trail` (all of it) followed by the cycle's own trail with its
most recent min(10, length) entries excluded; it returns true and sets alive
to false exactly when some scanned point p satisfies |x - p.x| < 5 and
|y - p.y| < 5, and returns false (leaving the cycle unchanged) otherwise;
with fewer than 10 own trail points and an empty other trail it returns
false, and the exclusion slice is total (pure `List.take` of
`length - 10`), so it never raises. -/
theorem tron_C2 : ∀ (c : LightCycle) (other_trail : List (Int × Int)),
    c.alive = true →
    ¬(c.x < 0 ∨ c.x > 800 ∨ c.y < 0 ∨ c.y > 600) →
    (c.check_collision other_trail = (true, { c with alive := false }) ↔
      ∃ p ∈ other_trail ++ c.trail.take (c.trail.length - 10),
        |c.x - p.1| < 5 ∧ |c.y - p.2| < 5) ∧
    (c.check_collision other_trail = (false, c) ↔
      ¬∃ p ∈ other_trail ++ c.trail.take (c.trail.length - 10),
        |c.x - p.1| < 5 ∧ |c.y - p.2| < 5) ∧
    (c.trail.take (c.trail.length - 10)).length =
      c.trail.length - min 10 c.trail.length ∧
    (c.trail.length < 10 → other_trail = [] →
      c.check_collision other_trail = (false, c)) := by
  intro c other_trail ha hb
  rw [check_collision_alive_inbounds c other_trail ha hb]
  have hany : ((other_trail ++ c.trail.take (c.trail.length - 10)).any
      (fun segment => decide (|c.x - segment.1| < 5 ∧ |c.y - segment.2| < 5)) = true) ↔
      ∃ p ∈ other_trail ++ c.trail.take (c.trail.length - 10),
        |c.x - p.1| < 5 ∧ |c.y - p.2| < 5 := by
    simp only [List.any_eq_true, decide_eq_true_eq]
  refine ⟨?_, ?_, ?_, ?_⟩
  · by_cases hP : ∃ p ∈ other_trail ++ c.trail.take (c.trail.length - 10),
        |c.x - p.1| < 5 ∧ |c.y - p.2| < 5
    · rw [if_pos (hany.mpr hP)]
      exact iff_of_true rfl hP
    · rw [if_neg (fun hc => hP (hany.mp hc))]
      refine iff_of_false (fun hc => ?_) hP
      have := congrArg Prod.fst hc
      simp at this
  · by_cases hP : ∃ p ∈ other_trail ++ c.trail.take (c.trail.length - 10),
        |c.x - p.1| < 5 ∧ |c.y - p.2| < 5
    · rw [if_pos (hany.mpr hP)]
      refine iff_of_false (fun hc => ?_) (not_not_intro hP)
      have := congrArg Prod.fst hc
      simp at this
    · rw [if_neg (fun hc => hP (hany.mp hc))]
      exact iff_of_true rfl hP
  · rw [List.length_take]
    omega
  · intro hlen hot
    subst hot
    rw [Nat.sub_eq_zero_of_le (le_of_lt hlen)]
    simp

/-- Witness for C2: the freshly constructed player-1 cycle is alive, in
bounds, has a single-point trail, and reports no collision against an empty
other trail. -/
theorem tron_C2_witness :
    cycleA.alive = true ∧
    ¬(cycleA.x < 0 ∨ cycleA.x > 800 ∨ cycleA.y < 0 ∨ cycleA.y > 600) ∧
    cycleA.trail.length < 10 ∧
    cycleA.check_collision [] = (false, cycleA) :=
  ⟨rfl, by decide, by decide,
    (tron_C2 cycleA [] rfl (by decide)).2.2.2 (by decide) rfl⟩

/-- C3: for an alive cycle, `move` adds direction-vector times speed to the
position and appends exactly one entry, the new position, to the trail; the
trail length grows by one and its last entry is the new position; for a dead
cycle `move` changes nothing; the constructor sets speed to the constant 5;
concretely the player-1 starting cycle at (200, 300) heading RIGHT is at
(205, 300) after one move with trail [(200, 300), (205, 300)]. -/
theorem tron_C3 :
    (∀ c : LightCycle, c.alive = true →
      c.move = { c with
        x := c.x + c.direction.value.1 * c.speed,
        y := c.y + c.direction.value.2 * c.speed,
        trail := c.trail ++ [(c.x + c.direction.value.1 * c.speed,
                              c.y + c.direction.value.2 * c.speed)] } ∧
      c.move.trail.length = c.trail.length + 1 ∧
      c.move.trail.getLast? = some (c.move.x, c.move.y)) ∧
    (∀ c : LightCycle, c.alive = false → c.move = c) ∧
    (∀ (x y : Int) (color : Int × Int × Int) (d : Direction) (n : String),
      (LightCycle.mk0 x y color d n).speed = 5) ∧
    (cycleA.move.x = 205 ∧ cycleA.move.y = 300 ∧
      cycleA.move.trail = [(200, 300), (205, 300)]) := by
  refine ⟨fun c h => ⟨move_of_alive c h, ?_, ?_⟩, move_of_dead,
    fun _ _ _ _ _ => rfl, by decide⟩
  · rw [move_of_alive c h]
    simp
  · rw [move_of_alive c h]
    simp

/-- Witness for C3: the player-1 starting cycle is alive, its move appends
one trail point equal to the new position, and a dead copy of it does not
move. -/
theorem tron_C3_witness :
    (cycleA.alive = true ∧
      cycleA.move.trail.length = cycleA.trail.length + 1 ∧
      cycleA.move.trail.getLast? = some (cycleA.move.x, cycleA.move.y)) ∧
    (deadCycle.alive = false ∧ deadCycle.move = deadCycle) :=
  ⟨⟨rfl, (tron_C3.1 cycleA rfl).2.1, (tron_C3.1 cycleA rfl).2.2⟩,
    ⟨rfl, tron_C3.2.1 deadCycle rfl⟩⟩

/-- C4: for an alive cycle, turning to the exact opposite direction (vectors
are exact negations) leaves the cycle unchanged; turning to any direction
that is not the exact opposite replaces the direction; no direction is its
own opposite, so a request equal to the current direction is accepted. -/
theorem tron_C4 :
    (∀ (c : LightCycle) (d : Direction), c.alive = true →
      ((c.direction.value.1, c.direction.value.2) = (-d.value.1, -d.value.2) →
        c.change_direction d = c) ∧
      ((c.direction.value.1, c.direction.value.2) ≠ (-d.value.1, -d.value.2) →
        c.change_direction d = { c with direction := d })) ∧
    (∀ d : Direction, (d.value.1, d.value.2) ≠ (-d.value.1, -d.value.2)) := by
  refine ⟨fun c d h => ⟨fun hop => ?_, fun hne => ?_⟩, fun d => by cases d <;> decide⟩
  · unfold LightCycle.change_direction
    rw [if_pos h, if_neg (not_not_intro hop)]
  · unfold LightCycle.change_direction
    rw [if_pos h, if_pos hne]

/-- Witness for C4: the player-1 starting cycle heads RIGHT; a LEFT request
(the exact opposite) is rejected, an UP request is accepted. -/
theorem tron_C4_witness :
    cycleA.alive = true ∧
    cycleA.change_direction Direction.LEFT = cycleA ∧
    cycleA.change_direction Direction.UP = { cycleA with direction := Direction.UP } :=
  ⟨rfl, (tron_C4.1 cycleA Direction.LEFT rfl).1 (by decide),
    (tron_C4.1 cycleA Direction.UP rfl).2 (by decide)⟩

/-- C5: an alive cycle whose position is out of bounds (x < 0 or x > 800 or
y < 0 or y > 600) is marked dead by `check_collision`, which returns true
regardless of either trail's contents; in a running game with both cycles
alive where cycle1's move lands at x = 805, the update finishes the game,
the winner is the opponent's name, cycle1 is dead and the opponent is still
alive. -/
theorem tron_C5 :
    (∀ (c : LightCycle) (t : List (Int × Int)), c.alive = true →
      (c.x < 0 ∨ c.x > 800 ∨ c.y < 0 ∨ c.y > 600) →
      c.check_collision t = (true, { c with alive := false })) ∧
    (∀ g : Game, g.game_over = false → g.cycle1.alive = true →
      g.cycle2.alive = true → g.cycle1.move.x = 805 →
      (Game.update g).game_over = true ∧
      (Game.update g).winner = some g.cycle2.player_name ∧
      (Game.update g).cycle1.alive = false ∧
      (Game.update g).cycle2.alive = true) := by
  refine ⟨fun c t ha hoob => check_collision_oob c t ha hoob, ?_⟩
  intro g hg ha1 ha2 hx
  have hgo : ¬g.game_over = true := by simp [hg]
  have hc1 : g.cycle1.move.check_collision g.cycle2.move.trail =
      (true, { g.cycle1.move with alive := false }) :=
    check_collision_oob _ _ (by rw [move_alive]; exact ha1)
      (by rw [hx]; norm_num)
  have hc2a : g.cycle2.move.alive = true := by rw [move_alive]; exact ha2
  have hupd : Game.update g =
      { cycle1 := { g.cycle1.move with alive := false },
        cycle2 := g.cycle2.move, game_over := true,
        winner := winnerOf { g.cycle1.move with alive := false } g.cycle2.move } := by
    simp [Game.update, if_neg hgo, hc1]
  rw [hupd]
  refine ⟨rfl, ?_, rfl, hc2a⟩
  unfold winnerOf
  rw [if_neg (by simp [hc2a]), if_pos rfl]
  exact congrArg some (move_player_name g.cycle2)

/-- Witness for C5: `oobCycle` sits at x = 805 and its check kills it at
once; `oobGame` has cycle1 at the right wall, its move lands at x = 805 and
the update declares "Player 2" the winner. -/
theorem tron_C5_witness :
    (oobCycle.alive = true ∧ (oobCycle.x < 0 ∨ oobCycle.x > 800 ∨
      oobCycle.y < 0 ∨ oobCycle.y > 600) ∧
      oobCycle.check_collision [] = (true, { oobCycle with alive := false })) ∧
    (oobGame.game_over = false ∧ oobGame.cycle1.move.x = 805 ∧
      (Game.update oobGame).winner = some oobGame.cycle2.player_name ∧
      (Game.update oobGame).cycle2.alive = true) :=
  ⟨⟨rfl, by decide, tron_C5.1 oobCycle [] rfl (by decide)⟩,
    ⟨rfl, by decide, (tron_C5.2 oobGame rfl rfl rfl (by decide)).2.1,
      (tron_C5.2 oobGame rfl rfl rfl (by decide)).2.2.2⟩⟩

/-- C6: once a game is finished, any number of further `update` calls leaves
the whole state (both cycles, the finished flag and the winner) unchanged. -/
theorem tron_C6 : ∀ g : Game, g.game_over = true →
    ∀ n : Nat, Game.update^[n] g = g :=
  fun g h n => Function.iterate_fixed (update_of_finished g h) n

/-- Witness for C6: five updates of a concrete finished game change
nothing. -/
theorem tron_C6_witness :
    finishedGame.game_over = true ∧
    Game.update^[5] finishedGame = finishedGame :=
  ⟨rfl, tron_C6 finishedGame rfl 5⟩

/-- C7: restart ignores the current state and produces exactly the initial
configuration: cycle1 at (200, 300) heading RIGHT, cycle2 at (600, 300)
heading LEFT, both alive with one-point trails holding their start
positions, game not over and no winner. -/
theorem tron_C7 :
    (∀ g : Game, g.restart = Game.init) ∧
    Game.init.cycle1.x = 200 ∧ Game.init.cycle1.y = 300 ∧
    Game.init.cycle1.direction = Direction.RIGHT ∧
    Game.init.cycle1.alive = true ∧
    Game.init.cycle1.trail = [(200, 300)] ∧
    Game.init.cycle2.x = 600 ∧ Game.init.cycle2.y = 300 ∧
    Game.init.cycle2.direction = Direction.LEFT ∧
    Game.init.cycle2.alive = true ∧
    Game.init.cycle2.trail = [(600, 300)] ∧
    Game.init.game_over = false ∧
    Game.init.winner = none :=
  ⟨fun _ => rfl, rfl, rfl, rfl, rfl, rfl, rfl, rfl, rfl, rfl, rfl, rfl, rfl⟩

/-- C8: in every state reachable from the initial configuration by tick,
turn and restart: trails are nonempty, a running game has no winner and two
live cycles, a finished game has a winner; a finished game is a fixed point
of `update` and turning never changes the finished flag or the winner (so
the winner, set at the tick that finishes the game, is never overwritten
until a restart); `update` and turning never revive a dead cycle; and on a
dead cycle `move` and `change_direction` are no-ops. -/
theorem tron_C8 :
    (∀ g : Game, Reachable g →
      1 ≤ g.cycle1.trail.length ∧ 1 ≤ g.cycle2.trail.length ∧
      (g.game_over = false →
        g.winner = none ∧ g.cycle1.alive = true ∧ g.cycle2.alive = true) ∧
      (g.game_over = true → g.winner ≠ none)) ∧
    (∀ g : Game, g.game_over = true → g.update = g) ∧
    (∀ (g : Game) (d : Direction),
      (g.handle_turn1 d).game_over = g.game_over ∧
      (g.handle_turn1 d).winner = g.winner ∧
      (g.handle_turn2 d).game_over = g.game_over ∧
      (g.handle_turn2 d).winner = g.winner) ∧
    (∀ g : Game, g.cycle1.alive = false → g.update.cycle1.alive = false) ∧
    (∀ g : Game, g.cycle2.alive = false → g.update.cycle2.alive = false) ∧
    (∀ (g : Game) (d : Direction),
      (g.handle_turn1 d).cycle1.alive = g.cycle1.alive ∧
      (g.handle_turn2 d).cycle2.alive = g.cycle2.alive) ∧
    (∀ c : LightCycle, c.alive = false → c.move = c) ∧
    (∀ (c : LightCycle) (d : Direction), c.alive = false →
      c.change_direction d = c) := by
  refine ⟨fun g h => reachable_inv h, update_of_finished, ?_, update_alive_mono1,
    update_alive_mono2, ?_, move_of_dead, fun c d => change_direction_of_dead c d⟩
  · intro g d
    refine ⟨?_, ?_, ?_, ?_⟩
    · unfold Game.handle_turn1
      split <;> rfl
    · unfold Game.handle_turn1
      split <;> rfl
    · unfold Game.handle_turn2
      split <;> rfl
    · unfold Game.handle_turn2
      split <;> rfl
  · intro g d
    constructor
    · unfold Game.handle_turn1
      split <;> simp [change_direction_alive]
    · unfold Game.handle_turn2
      split <;> simp [change_direction_alive]

/-- Witness for C8: the invariant holds at the initial state; a concrete
finished game is a fixed point of update; a game with a dead cycle1 keeps it
dead across an update; a dead cycle ignores move. -/
theorem tron_C8_witness :
    (1 ≤ Game.init.cycle1.trail.length ∧
      Game.init.winner = none ∧ Game.init.cycle1.alive = true ∧
      Game.init.cycle2.alive = true) ∧
    Game.update finishedGame = finishedGame ∧
    (Game.update deadGame).cycle1.alive = false ∧
    deadCycle.move = deadCycle ∧
    deadCycle.change_direction Direction.UP = deadCycle :=
  ⟨⟨(tron_C8.1 Game.init Reachable.init).1,
      (tron_C8.1 Game.init Reachable.init).2.2.1 rfl⟩,
    tron_C8.2.1 finishedGame rfl,
    tron_C8.2.2.2.1 deadGame rfl,
    tron_C8.2.2.2.2.2.2.1 deadCycle rfl,
    tron_C8.2.2.2.2.2.2.2 deadCycle Direction.UP rfl⟩

/-- C9: a turn request after the game is FINISHED still reaches the
addressed cycle: the handler equals forwarding to `change_direction`
unconditionally (the outer alive guard is redundant, so a dead cycle's
request is ignored exactly by the cycle's own guard, and the finished flag
never blocks a turn); for a surviving cycle a non-opposite request replaces
its direction even though the game is over; for a dead cycle the request
changes nothing. -/
theorem tron_C9 :
    (∀ (g : Game) (d : Direction),
      g.handle_turn1 d = { g with cycle1 := g.cycle1.change_direction d } ∧
      g.handle_turn2 d = { g with cycle2 := g.cycle2.change_direction d }) ∧
    (∀ (g : Game) (d : Direction), g.game_over = true → g.cycle1.alive = true →
      (g.cycle1.direction.value.1, g.cycle1.direction.value.2) ≠
        (-d.value.1, -d.value.2) →
      (g.handle_turn1 d).cycle1.direction = d ∧
      (g.handle_turn1 d).game_over = true) ∧
    (∀ (g : Game) (d : Direction), g.game_over = true → g.cycle2.alive = true →
      (g.cycle2.direction.value.1, g.cycle2.direction.value.2) ≠
        (-d.value.1, -d.value.2) →
      (g.handle_turn2 d).cycle2.direction = d ∧
      (g.handle_turn2 d).game_over = true) ∧
    (∀ (g : Game) (d : Direction), g.cycle1.alive = false →
      g.handle_turn1 d = g) ∧
    (∀ (g : Game) (d : Direction), g.cycle2.alive = false →
      g.handle_turn2 d = g) := by
  refine ⟨?_, ?_, ?_, ?_, ?_⟩
  · intro g d
    constructor
    · unfold Game.handle_turn1
      split <;> rename_i hal
      · rfl
      · rw [change_direction_of_dead _ _ (by simpa using hal)]
    · unfold Game.handle_turn2
      split <;> rename_i hal
      · rfl
      · rw [change_direction_of_dead _ _ (by simpa using hal)]
  · intro g d hgo ha hne
    unfold Game.handle_turn1
    rw [if_pos ha]
    unfold LightCycle.change_direction
    rw [if_pos ha, if_pos hne]
    exact ⟨rfl, hgo⟩
  · intro g d hgo ha hne
    unfold Game.handle_turn2
    rw [if_pos ha]
    unfold LightCycle.change_direction
    rw [if_pos ha, if_pos hne]
    exact ⟨rfl, hgo⟩
  · intro g d h
    unfold Game.handle_turn1
    rw [if_neg (by simp [h])]
  · intro g d h
    unfold Game.handle_turn2
    rw [if_neg (by simp [h])]

/-- Witness for C9: in a concrete finished game the surviving cycle1 (heading
RIGHT) accepts an UP turn request, and in a game whose cycle1 is dead the
request changes nothing. -/
theorem tron_C9_witness :
    (finishedGame.game_over = true ∧ finishedGame.cycle1.alive = true ∧
      (finishedGame.handle_turn1 Direction.UP).cycle1.direction = Direction.UP) ∧
    (deadGame.cycle1.alive = false ∧
      deadGame.handle_turn1 Direction.UP = deadGame) :=
  ⟨⟨rfl, rfl, (tron_C9.2.1 finishedGame Direction.UP rfl rfl (by decide)).1⟩,
    ⟨rfl, tron_C9.2.2.2.1 deadGame Direction.UP rfl⟩⟩

/-- C10: `check_collision` can change nothing but the alive flag: position,
direction, trail, speed, name and color are preserved; for a live cycle the
returned flag is true exactly when the cycle came out dead; a dead cycle is
returned unchanged with result false. -/
theorem tron_C10 : ∀ (c : LightCycle) (t : List (Int × Int)),
    (c.check_collision t).2.x = c.x ∧
    (c.check_collision t).2.y = c.y ∧
    (c.check_collision t).2.direction = c.direction ∧
    (c.check_collision t).2.trail = c.trail ∧
    (c.check_collision t).2.speed = c.speed ∧
    (c.check_collision t).2.player_name = c.player_name ∧
    (c.check_collision t).2.color = c.color ∧
    (c.alive = true →
      ((c.check_collision t).1 = true ↔ (c.check_collision t).2.alive = false)) ∧
    (c.alive = false → c.check_collision t = (false, c)) := by
  intro c t
  obtain hc | hc := check_collision_snd_cases c t <;>
    exact ⟨by rw [hc], by rw [hc], by rw [hc], by rw [hc], by rw [hc], by rw [hc],
      by rw [hc], fun ha => check_collision_fst_iff c t ha,
      fun hd => check_collision_of_dead c t hd⟩

/-- Witness for C10: at the live starting cycle the returned flag matches
the alive flag flip, and the dead copy is returned unchanged. -/
theorem tron_C10_witness :
    (cycleA.alive = true ∧
      ((cycleA.check_collision []).1 = true ↔
        (cycleA.check_collision []).2.alive = false)) ∧
    (deadCycle.alive = false ∧
      deadCycle.check_collision [] = (false, deadCycle)) :=
  ⟨⟨rfl, (tron_C10 cycleA []).2.2.2.2.2.2.2.1 rfl⟩,
    ⟨rfl, (tron_C10 deadCycle []).2.2.2.2.2.2.2.2 rfl⟩⟩

set_option maxRecDepth 40000 in
/-- C1, evaluation of the code at a head-on simultaneous collision reachable
from the initial game: after 39 ticks the game is still running, on the 40th
tick both cycles' checks, each evaluated against the other's full moved
trail, report a collision, yet the update sets the winner to "Player 2" and
not to "Draw" — Python's short-circuit `or` never runs cycle2's check, so
cycle2 stays alive and the Draw branch of `Game.update` is unreachable. -/
theorem tron_C1_code_behavior :
    tick39.game_over = false ∧
    (tick39.cycle1.move.check_collision tick39.cycle2.move.trail).1 = true ∧
    (tick39.cycle2.move.check_collision tick39.cycle1.move.trail).1 = true ∧
    Game.update tick39 = Game.update^[40] Game.init ∧
    (Game.update tick39).game_over = true ∧
    (Game.update tick39).winner = some "Player 2" ∧
    (Game.update tick39).winner ≠ some "Draw" ∧
    (Game.update tick39).cycle2.alive = true := by
  decide

end Tron
